import Mathlib

/-!
Verification of the hiddev call-control demo
(src/linux-examples/hiddev/jabra_hiddev_demo.c).

The development is a shallow embedding of the C program:

* the global variables mutestate, hookstate, ringerstate, run (ints in C)
  become the structure Globals, threaded explicitly;
* the event-reconciliation switch inside event_loop (lines 407-449) becomes
  processEvent; a hiddev_event is its (hid, value) pair;
* the command dispatcher hit_key (lines 458-500) becomes hitKey;
* writeUsage / readUsage (lines 240-374) become functions over an abstract
  Device oracle that answers the four hiddev ioctls; each call returns the
  exact sequence of ioctl requests issued (an Ioctl trace) together with the
  outcome and the unchanged global state;
* main's exit-status logic (lines 505-584) becomes mainExit over a MainEnv
  describing the environment's responses;
* one iteration of event_loop's read/dispatch body becomes eventLoopIter.

Calls to writeUsage made by the reconciler and the dispatcher are recorded
as WriteCall values (the argument tuples of the C calls); whether the device
accepts them is irrelevant to the call-state logic, exactly as in the C code,
which ignores writeUsage's outcome.
-/

namespace JabraHiddev

/-- HID usage page 0x000B (TelephonyUsagePage in the source). -/
def TelephonyUsagePage : Nat := 0x000B

/-- HID usage page 0x000C (ConsumerUsagePage in the source). -/
def ConsumerUsagePage : Nat := 0x000C

/-- HID usage page 0x0008 (LEDUsagePage in the source). -/
def LEDUsagePage : Nat := 0x0008

/-- HID usage page 0x0009 (ButtonUsagePage in the source). -/
def ButtonUsagePage : Nat := 0x0009

/-- LED page usage id 0x0009: mute LED. -/
def Led_Mute : Nat := 0x0009

/-- LED page usage id 0x0017: off-hook LED. -/
def Led_Off_Hook : Nat := 0x0017

/-- LED page usage id 0x0018: ring LED. -/
def Led_Ring : Nat := 0x0018

/-- Telephony page usage id 0x0020: hook switch. -/
def Tel_Hook_Switch : Nat := 0x0020

/-- Telephony page usage id 0x002F: phone mute button. -/
def Tel_Phone_Mute : Nat := 0x002F

/-- Telephony page usage id 0x009E: ringer tone. -/
def Tel_Ringer : Nat := 0x009E

/-- Consumer page usage id 0x00E9: volume increment. -/
def Con_Volume_Incr : Nat := 0x00E9

/-- Consumer page usage id 0x00EA: volume decrement. -/
def Con_Volume_Decr : Nat := 0x00EA

/-- From linux/hiddev.h: HID_REPORT_TYPE_OUTPUT = 2. -/
def HID_REPORT_TYPE_OUTPUT : Nat := 2

/-- From linux/hiddev.h: HID_REPORT_ID_UNKNOWN = 0xffffffff. -/
def HID_REPORT_ID_UNKNOWN : Nat := 0xFFFFFFFF

/-- C logical negation on int, used by the source as `!mutestate` etc. -/
def cNot (x : Int) : Int := if x = 0 then 1 else 0

/-- The four global state variables of the program (C ints):
mutestate, hookstate, ringerstate and the run flag. -/
structure Globals where
  mutestate : Int
  hookstate : Int
  ringerstate : Int
  run : Int
deriving DecidableEq

/-- The argument tuple of one `writeUsage(fd, report_type, page, code, value)`
call issued by the reconciler or the dispatcher (fd omitted: single device). -/
structure WriteCall where
  report_type : Nat
  page : Nat
  code : Nat
  value : Int
deriving DecidableEq

/-- Reconciliation of one hiddev_event `{hid, value}`: the body of the
switch inside event_loop (source lines 407-449), executed under the lock.
Printing is dropped; the returned list records the writeUsage calls issued,
in order. The Consumer page cases only print, so they leave the state
unchanged and issue no writes, like every unrecognised page or code. -/
def processEvent (hid : Nat) (v : Int) (g : Globals) : Globals × List WriteCall :=
  if hid >>> 16 = TelephonyUsagePage then
    if hid &&& 0xFFFF = Tel_Hook_Switch then
      if g.hookstate ≠ v then
        let ringWrites :=
          if g.hookstate = 0 then
            [⟨HID_REPORT_TYPE_OUTPUT, LEDUsagePage, Led_Ring, 0⟩,
             ⟨HID_REPORT_TYPE_OUTPUT, TelephonyUsagePage, Tel_Ringer, 0⟩]
          else []
        ({ g with hookstate := v },
         ringWrites ++ [⟨HID_REPORT_TYPE_OUTPUT, LEDUsagePage, Led_Off_Hook, v⟩])
      else (g, [])
    else if hid &&& 0xFFFF = Tel_Phone_Mute then
      if v = 1 then
        ({ g with mutestate := cNot g.mutestate },
         [⟨HID_REPORT_TYPE_OUTPUT, LEDUsagePage, Led_Mute, cNot g.mutestate⟩])
      else (g, [])
    else (g, [])
  else (g, [])

/-- The command dispatcher hit_key (source lines 458-500), executed under the
lock for the state-mutating keys. The help key and unknown keys only print,
so they change nothing and write nothing. -/
def hitKey (key : Char) (g : Globals) : Globals × List WriteCall :=
  if key = 'o' then
    let h := cNot g.hookstate
    ({ g with hookstate := h },
     (if h = 1 then
        [⟨HID_REPORT_TYPE_OUTPUT, LEDUsagePage, Led_Ring, 0⟩,
         ⟨HID_REPORT_TYPE_OUTPUT, TelephonyUsagePage, Tel_Ringer, 0⟩]
      else []) ++ [⟨HID_REPORT_TYPE_OUTPUT, LEDUsagePage, Led_Off_Hook, h⟩])
  else if key = 'm' then
    let m := cNot g.mutestate
    ({ g with mutestate := m },
     [⟨HID_REPORT_TYPE_OUTPUT, LEDUsagePage, Led_Mute, m⟩])
  else if key = 'r' then
    let r := cNot g.ringerstate
    ({ g with ringerstate := r },
     [⟨HID_REPORT_TYPE_OUTPUT, LEDUsagePage, Led_Ring, r⟩,
      ⟨HID_REPORT_TYPE_OUTPUT, TelephonyUsagePage, Tel_Ringer, r⟩])
  else if key = 'q' then
    ({ g with run := 0 }, [])
  else
    (g, [])

/-- The hid code of a hook-switch input event: TelephonyUsagePage in the
high 16 bits, Tel_Hook_Switch in the low 16. -/
def hookHid : Nat := (TelephonyUsagePage <<< 16) ||| Tel_Hook_Switch

/-- The hid code of a mute-button input event. -/
def muteHid : Nat := (TelephonyUsagePage <<< 16) ||| Tel_Phone_Mute

/-- The writes of a list that target the ring pair: the ring LED
(LED page, Led_Ring) or the ringer tone (Telephony page, Tel_Ringer). -/
def ringPairWrites (ws : List WriteCall) : List WriteCall :=
  ws.filter fun w =>
    (w.page == LEDUsagePage && w.code == Led_Ring) ||
    (w.page == TelephonyUsagePage && w.code == Tel_Ringer)

/-- What a successful HIDIOCGUSAGE resolution fills into the
hiddev_usage_ref struct: the owning report id, field index, usage index,
and the usage's current value. -/
structure UsageRefInfo where
  report_id : Nat
  field_index : Nat
  usage_index : Nat
  value : Int
deriving DecidableEq

/-- The part of hiddev_field_info the program reads after HIDIOCGFIELDINFO:
the inclusive logical bounds a written value must satisfy. -/
structure FieldInfo where
  logical_minimum : Int
  logical_maximum : Int
deriving DecidableEq

/-- The device side of the four hiddev ioctls, as an oracle:
gusage answers a HIDIOCGUSAGE resolution by (report_type, usage_code) with
the report id unknown; gfieldinfo answers HIDIOCGFIELDINFO by
(report_type, report_id, field_index); gusageLoc answers a second
HIDIOCGUSAGE at an already-resolved location with the usage value;
susageOk and sreportOk tell whether HIDIOCSUSAGE and HIDIOCSREPORT are
accepted. none / false is the ioctl returning a negative value. -/
structure Device where
  gusage : Nat → Nat → Option UsageRefInfo
  gfieldinfo : Nat → Nat → Nat → Option FieldInfo
  gusageLoc : Nat → Nat → Nat → Nat → Option Int
  susageOk : Bool
  sreportOk : Bool

/-- One ioctl request issued to the device, with the request fields the
program filled in. -/
inductive Ioctl where
  | gusage (report_type report_id usage_code : Nat)
  | gfieldinfo (report_type report_id field_index : Nat)
  | susage (report_type report_id field_index usage_index : Nat) (value : Int)
  | sreport (report_type report_id : Nat)
deriving DecidableEq

/-- Outcome of writeUsage, mirroring its early returns: which perror /
diagnostic fired, with the rangeError diagnostic carrying exactly what the
fprintf prints: the usage page name, the offending value and both bounds. -/
inductive WriteResult where
  | resolveFailed
  | fieldInfoFailed
  | rangeError (pageName : String) (value lo hi : Int)
  | stageFailed
  | commitFailed
  | ok
deriving DecidableEq

/-- Outcome of readUsage, mirroring its early returns. -/
inductive ReadResult where
  | resolveFailed
  | fieldInfoFailed
  | valueReadFailed
  | commitFailed
  | ok
deriving DecidableEq

/-- The pure lookup table usagePageName (source lines 140-150): names the
high 16 bits of a usage code, for diagnostics only. -/
def usagePageName (usage_code : Nat) : String :=
  let hi := (usage_code >>> 16) &&& 0xFFFF
  if hi = TelephonyUsagePage then "TelephonyUsagePage"
  else if hi = ConsumerUsagePage then "ConsumerUsagePage"
  else if hi = LEDUsagePage then "LEDUsagePage"
  else if hi = ButtonUsagePage then "ButtonUsagePage"
  else "not translated"

/-- writeUsage (source lines 240-305). The function reads none of the
global state variables and assigns none of them, so the Globals argument is
returned untouched on every path. The returned list is the exact sequence
of ioctl requests issued, in program order; HIDDEBUG printing is compiled
out (HIDDEBUG = 0). -/
def writeUsage (g : Globals) (dev : Device) (report_type page code : Nat)
    (value : Int) : Globals × List Ioctl × WriteResult :=
  let usage_code := (page <<< 16) ||| code
  let t1 := [Ioctl.gusage report_type HID_REPORT_ID_UNKNOWN usage_code]
  match dev.gusage report_type usage_code with
  | none => (g, t1, WriteResult.resolveFailed)
  | some uref =>
      let t2 := t1 ++ [Ioctl.gfieldinfo report_type uref.report_id uref.field_index]
      match dev.gfieldinfo report_type uref.report_id uref.field_index with
      | none => (g, t2, WriteResult.fieldInfoFailed)
      | some finfo =>
          if value < finfo.logical_minimum ∨ value > finfo.logical_maximum then
            (g, t2,
             WriteResult.rangeError (usagePageName usage_code) value
               finfo.logical_minimum finfo.logical_maximum)
          else
            let t3 := t2 ++
              [Ioctl.susage report_type uref.report_id uref.field_index
                uref.usage_index value]
            if dev.susageOk then
              let t4 := t3 ++ [Ioctl.sreport report_type uref.report_id]
              (g, t4, if dev.sreportOk then WriteResult.ok else WriteResult.commitFailed)
            else
              (g, t3, WriteResult.stageFailed)

/-- readUsage (source lines 307-374). Like writeUsage it never touches the
global state variables. The out-parameter `__s32 *value` is modelled by
passing its previous contents (prev) and returning its final contents as the
last component: the source assigns `*value = uref.value` only after the
resolve, the field-info fetch and the second HIDIOCGUSAGE (the value read at
the resolved location) have all succeeded; the range check of writeUsage is
compiled out here (#if 0), and a closing HIDIOCSREPORT is issued after a
successful value read, its failure affecting only the result code. -/
def readUsage (g : Globals) (dev : Device) (report_type page code : Nat)
    (prev : Int) : Globals × List Ioctl × ReadResult × Int :=
  let usage_code := (page <<< 16) ||| code
  let t1 := [Ioctl.gusage report_type HID_REPORT_ID_UNKNOWN usage_code]
  match dev.gusage report_type usage_code with
  | none => (g, t1, ReadResult.resolveFailed, prev)
  | some uref =>
      let t2 := t1 ++ [Ioctl.gfieldinfo report_type uref.report_id uref.field_index]
      match dev.gfieldinfo report_type uref.report_id uref.field_index with
      | none => (g, t2, ReadResult.fieldInfoFailed, prev)
      | some _finfo =>
          let t3 := t2 ++ [Ioctl.gusage report_type uref.report_id usage_code]
          match dev.gusageLoc report_type uref.report_id uref.field_index
              uref.usage_index with
          | none => (g, t3, ReadResult.valueReadFailed, prev)
          | some v =>
              let t4 := t3 ++ [Ioctl.sreport report_type uref.report_id]
              (g, t4,
               (if dev.sreportOk then ReadResult.ok else ReadResult.commitFailed), v)

/-- A concrete test device: every usage resolves to report 3, field 0,
usage index 0, current value 1, with logical range 0..1, and all set
requests accepted. -/
def testDev : Device where
  gusage := fun _ _ => some ⟨3, 0, 0, 1⟩
  gfieldinfo := fun _ _ _ => some ⟨0, 1⟩
  gusageLoc := fun _ _ _ _ => some 1
  susageOk := true
  sreportOk := true

/-- A concrete device on which every query ioctl is rejected. -/
def deadDev : Device where
  gusage := fun _ _ => none
  gfieldinfo := fun _ _ _ => none
  gusageLoc := fun _ _ _ _ => none
  susageOk := false
  sreportOk := false

/-- A convenient initial global state: all call states 0, run flag 1. -/
def g0 : Globals := ⟨0, 0, 0, 1⟩

/-- sizeof(struct hiddev_event): two 32-bit members, hid and value. -/
def sizeofHiddevEvent : Int := 8

/-- The batch dispatch inside event_loop: fold processEvent over the decoded
events, accumulating the writeUsage calls in order. Each event is handled
under the lock, as in the source. -/
def processBatch (evs : List (Nat × Int)) (g : Globals) : Globals × List WriteCall :=
  evs.foldl
    (fun acc e =>
      let r := processEvent e.1 e.2 acc.1
      (r.1, acc.2 ++ r.2))
    (g, [])

/-- One iteration of the while body of event_loop (source lines 383-454)
after the select and the read: selectRd is what select returned, readRd what
read returned (negative on a read error), evs the events sitting in the
64-entry buffer. Result: the new global state, the writeUsage calls issued,
and some r when the background task returns r from this iteration (the
source returns (void*)-1 after setting run = 0 on a short or failed read);
none when the loop would continue. The loop processes readRd / sizeof(ev[0])
events of the buffer. -/
def eventLoopIter (selectRd readRd : Int) (evs : List (Nat × Int)) (g : Globals) :
    Globals × List WriteCall × Option Int :=
  if selectRd > 0 then
    if readRd < sizeofHiddevEvent then
      ({ g with run := 0 }, [], some (-1))
    else
      let r := processBatch (evs.take (readRd.toNat / 8)) g
      (r.1, r.2, none)
  else
    (g, [], none)

/-- The guard of event_loop's while: run == 1. -/
def threadLoopContinues (g : Globals) : Bool := g.run == 1

/-- The guard of main's foreground polling while: run == 1. -/
def mainLoopContinues (g : Globals) : Bool := g.run == 1

/-- The environment main runs against: the doListDev answer for each probed
device index, whether open fails and with EACCES, whether pthread_create
fails (nonzero), whether pthread_join fails (nonzero), and the value the
background task returned. -/
structure MainEnv where
  listDev : Nat → Int
  openFails : Bool
  openErrnoEACCES : Bool
  createFails : Bool
  joinFails : Bool
  threadRetval : Int

/-- The device scan of main (source lines 511-516): the loop variable's
final value — the first i < 19 with doListDev returning 1, or 19 when none
matches. -/
def findDevIndex (listDev : Nat → Int) : Nat :=
  (((List.range 19).find? fun i => listDev i == 1).getD 19)

/-- The exit status of main (source lines 505-584). Early non-zero returns:
no device index matched; open failed with errno EACCES (any other open
failure falls through in the source); pthread_create failed. Otherwise main
polls until run becomes 0, then joins: retval starts at 0 and is set to -1
only when pthread_join itself fails. The join is called with a NULL
value pointer, so the background task's return value (env.threadRetval)
never reaches retval: mainExit does not consult it. -/
def mainExit (env : MainEnv) : Int :=
  if findDevIndex env.listDev = 19 then -1
  else if env.openFails && env.openErrnoEACCES then -1
  else if env.createFails then -1
  else if env.joinFails then -1
  else 0

/-- The environment of the malformed-read scenario: a device answers at
index 0, open and thread creation succeed, the device read comes back short,
so the background task returns -1; the join itself succeeds. -/
def shortReadEnv : MainEnv where
  listDev := fun _ => 1
  openFails := false
  openErrnoEACCES := false
  createFails := false
  joinFails := false
  threadRetval := -1

/-- A hook-affecting operation: a hardware hook-switch event carrying a
reported value, or a user hook-toggle command (key o). -/
inductive HookOp where
  | hw (v : Int)
  | toggle
deriving DecidableEq

/-- Serialized application of one hook-affecting operation, exactly as the
program performs it inside the lock: a hardware event goes through the
event_loop reconciliation, a user toggle through hit_key. -/
def applyHookOp (g : Globals) : HookOp → Globals
  | HookOp.hw v => (processEvent hookHid v g).1
  | HookOp.toggle => (hitKey 'o' g).1

/-- The whole arrival-order interleaving, each operation applied atomically
under the single lock. -/
def runHookOps (g : Globals) (ops : List HookOp) : Globals :=
  ops.foldl applyHookOp g

/-- XOR on the int encoding of booleans: 0 when the two sides agree, else 1. -/
def xorI (a b : Int) : Int := if a = b then 0 else 1

/-- The effect of one hook-affecting operation on the stored hook state h,
as an XOR delta: a toggle always flips (delta 1); a hardware event carrying
v moves the state from h to v, a delta of h XOR v. -/
def hookEffect (h : Int) : HookOp → Int
  | HookOp.hw v => xorI h v
  | HookOp.toggle => 1

/-- The hook-state transition of one operation, read off the source: a
hardware event stores the reported value when it differs (and otherwise
leaves the state, which is the same value); a toggle stores the C negation. -/
def hstep (h : Int) : HookOp → Int
  | HookOp.hw v => if h ≠ v then v else h
  | HookOp.toggle => cNot h

/-- The XOR of the effects of all operations, taken at the states they
actually meet when applied in arrival order. -/
def hookEffectsXor (h : Int) : List HookOp → Int
  | [] => 0
  | op :: ops => xorI (hookEffect h op) (hookEffectsXor (hstep h op) ops)

/-- An operation is boolean-valued when the hardware value it carries is 0
or 1 (toggles always are). -/
def hookOpBool : HookOp → Bool
  | HookOp.hw v => v == 0 || v == 1
  | HookOp.toggle => true

example : processEvent hookHid 1 ⟨0, 0, 0, 1⟩ =
    (⟨0, 1, 0, 1⟩,
     [⟨2, 8, 0x18, 0⟩, ⟨2, 0xB, 0x9E, 0⟩, ⟨2, 8, 0x17, 1⟩]) := by decide

example : processEvent hookHid 0 ⟨0, 1, 0, 1⟩ =
    (⟨0, 0, 0, 1⟩, [⟨2, 8, 0x17, 0⟩]) := by decide

example : processEvent muteHid 1 ⟨0, 0, 0, 1⟩ =
    (⟨1, 0, 0, 1⟩, [⟨2, 8, 0x9, 1⟩]) := by decide

example : processEvent muteHid 0 ⟨1, 0, 0, 1⟩ = (⟨1, 0, 0, 1⟩, []) := by decide

/-- C3: on a hook-switch input event whose value differs from the stored hook
state, the writes issued are, in order: when the stored hook state is 0
(on-hook to off-hook), ring LED := 0 then ringer tone := 0 then off-hook
LED := value; when the stored hook state is not 0, only the off-hook LED
write; in both cases the stored hook state becomes the event value, the other
state fields are untouched. -/
theorem hook_event_reconciliation (g : Globals) (v : Int) (hdiff : g.hookstate ≠ v) :
    processEvent hookHid v g =
      ({ g with hookstate := v },
       (if g.hookstate = 0 then
          [⟨HID_REPORT_TYPE_OUTPUT, LEDUsagePage, Led_Ring, 0⟩,
           ⟨HID_REPORT_TYPE_OUTPUT, TelephonyUsagePage, Tel_Ringer, 0⟩]
        else []) ++
       [⟨HID_REPORT_TYPE_OUTPUT, LEDUsagePage, Led_Off_Hook, v⟩]) := by
  have h1 : hookHid >>> 16 = TelephonyUsagePage := by decide
  have h2 : hookHid &&& 0xFFFF = Tel_Hook_Switch := by decide
  simp [processEvent, h1, h2, hdiff]

/-- Witness for C3: concrete hook events in both directions, covering the
spec scenario hook 0 with event value 1. -/
theorem hook_event_reconciliation_witness :
    processEvent hookHid 1 ⟨0, 0, 0, 1⟩ =
      (⟨0, 1, 0, 1⟩, [⟨2, 8, 0x18, 0⟩, ⟨2, 0xB, 0x9E, 0⟩, ⟨2, 8, 0x17, 1⟩]) ∧
    processEvent hookHid 0 ⟨0, 1, 0, 1⟩ = (⟨0, 0, 0, 1⟩, [⟨2, 8, 0x17, 0⟩]) := by
  have ha := hook_event_reconciliation ⟨0, 0, 0, 1⟩ 1 (by decide)
  have hb := hook_event_reconciliation ⟨0, 1, 0, 1⟩ 0 (by decide)
  refine ⟨?_, ?_⟩
  · rw [ha]; decide
  · rw [hb]; decide

/-- C4: on a mute-button input event, only value exactly 1 toggles the stored
mute state and issues one write of the mute LED carrying the new stored
value; any other value (0 in particular) leaves the state unchanged and
issues no write. -/
theorem mute_event_press_edge (g : Globals) (v : Int) :
    processEvent muteHid v g =
      if v = 1 then
        ({ g with mutestate := cNot g.mutestate },
         [⟨HID_REPORT_TYPE_OUTPUT, LEDUsagePage, Led_Mute, cNot g.mutestate⟩])
      else (g, []) := by
  have h1 : muteHid >>> 16 = TelephonyUsagePage := by decide
  have h2 : muteHid &&& 0xFFFF = Tel_Phone_Mute := by decide
  have h3 : ¬ (muteHid &&& 0xFFFF = Tel_Hook_Switch) := by decide
  simp [processEvent, h1, h2, h3, Tel_Phone_Mute, Tel_Hook_Switch]

/-- C7: the ringer-toggle command flips the stored ring state and writes the
ring LED and the ringer tone with the same new stored value; the hook paths
(the hook-toggle command and the hook-switch event) write that pair only
with value 0, and only on the on-hook to off-hook transition (stored hook
state 0 beforehand; for the event, also a differing reported value). -/
theorem ringer_pair_sync :
    (∀ g : Globals,
        hitKey 'r' g =
          ({ g with ringerstate := cNot g.ringerstate },
           [⟨HID_REPORT_TYPE_OUTPUT, LEDUsagePage, Led_Ring, cNot g.ringerstate⟩,
            ⟨HID_REPORT_TYPE_OUTPUT, TelephonyUsagePage, Tel_Ringer, cNot g.ringerstate⟩])) ∧
    (∀ g : Globals,
        ringPairWrites (hitKey 'o' g).2 =
          if g.hookstate = 0 then
            [⟨HID_REPORT_TYPE_OUTPUT, LEDUsagePage, Led_Ring, 0⟩,
             ⟨HID_REPORT_TYPE_OUTPUT, TelephonyUsagePage, Tel_Ringer, 0⟩]
          else []) ∧
    (∀ (g : Globals) (v : Int),
        ringPairWrites (processEvent hookHid v g).2 =
          if g.hookstate = 0 ∧ g.hookstate ≠ v then
            [⟨HID_REPORT_TYPE_OUTPUT, LEDUsagePage, Led_Ring, 0⟩,
             ⟨HID_REPORT_TYPE_OUTPUT, TelephonyUsagePage, Tel_Ringer, 0⟩]
          else []) := by
  refine ⟨fun g => by simp [hitKey], fun g => ?_, fun g v => ?_⟩
  · by_cases h0 : g.hookstate = 0
    · simp [hitKey, cNot, h0, ringPairWrites, LEDUsagePage, Led_Ring, Led_Off_Hook,
        TelephonyUsagePage, Tel_Ringer]
    · simp [hitKey, cNot, h0, ringPairWrites, LEDUsagePage, Led_Ring, Led_Off_Hook,
        TelephonyUsagePage, Tel_Ringer]
  · have h1 : hookHid >>> 16 = TelephonyUsagePage := by decide
    have h2 : hookHid &&& 0xFFFF = Tel_Hook_Switch := by decide
    by_cases hdiff : g.hookstate = v
    · simp [processEvent, h1, h2, hdiff, ringPairWrites]
    · by_cases h0 : g.hookstate = 0
      · rw [h0] at hdiff
        simp [processEvent, h1, h2, hdiff, h0, ringPairWrites, LEDUsagePage, Led_Ring,
          Led_Off_Hook, TelephonyUsagePage, Tel_Ringer]
      · simp [processEvent, h1, h2, hdiff, h0, ringPairWrites, LEDUsagePage, Led_Ring,
          Led_Off_Hook, TelephonyUsagePage, Tel_Ringer]

/-- C8: for boolean-valued stored states (0 or 1, the only values the program
itself ever stores), issuing the same toggle command twice with nothing in
between returns the corresponding stored state to its original value. -/
theorem double_toggle_identity (g : Globals)
    (hh : g.hookstate = 0 ∨ g.hookstate = 1)
    (hm : g.mutestate = 0 ∨ g.mutestate = 1)
    (hr : g.ringerstate = 0 ∨ g.ringerstate = 1) :
    (hitKey 'o' (hitKey 'o' g).1).1.hookstate = g.hookstate ∧
    (hitKey 'm' (hitKey 'm' g).1).1.mutestate = g.mutestate ∧
    (hitKey 'r' (hitKey 'r' g).1).1.ringerstate = g.ringerstate := by
  have key : ∀ x : Int, x = 0 ∨ x = 1 → cNot (cNot x) = x := by
    rintro x (rfl | rfl) <;> decide
  refine ⟨?_, ?_, ?_⟩
  · simp [hitKey, key g.hookstate hh]
  · simp [hitKey, key g.mutestate hm]
  · simp [hitKey, key g.ringerstate hr]

/-- Witness for C8: the all-zero state, covering the spec scenario of a
double mute toggle from stored mute 0. -/
theorem double_toggle_identity_witness :
    (hitKey 'o' (hitKey 'o' ⟨0, 0, 0, 1⟩).1).1.hookstate = 0 ∧
    (hitKey 'm' (hitKey 'm' ⟨0, 0, 0, 1⟩).1).1.mutestate = 0 ∧
    (hitKey 'r' (hitKey 'r' ⟨0, 0, 0, 1⟩).1).1.ringerstate = 0 :=
  double_toggle_identity ⟨0, 0, 0, 1⟩ (Or.inl rfl) (Or.inl rfl) (Or.inl rfl)

/-- C1: when the resolved field's bounds exclude the proposed value, the
ioctl trace of writeUsage is exactly the resolve and the field-info fetch —
no HIDIOCSUSAGE and no HIDIOCSREPORT — the outcome is the RangeError
diagnostic naming the usage page and both violated bounds, and the stored
call state (the Globals, mutestate, hookstate and ringerstate included) is
returned unchanged. -/
theorem write_out_of_range_no_commit
    (g : Globals) (dev : Device) (rt page code : Nat) (value : Int)
    (uref : UsageRefInfo) (finfo : FieldInfo)
    (h1 : dev.gusage rt ((page <<< 16) ||| code) = some uref)
    (h2 : dev.gfieldinfo rt uref.report_id uref.field_index = some finfo)
    (h3 : value < finfo.logical_minimum ∨ value > finfo.logical_maximum) :
    writeUsage g dev rt page code value =
      (g,
       [Ioctl.gusage rt HID_REPORT_ID_UNKNOWN ((page <<< 16) ||| code),
        Ioctl.gfieldinfo rt uref.report_id uref.field_index],
       WriteResult.rangeError (usagePageName ((page <<< 16) ||| code)) value
         finfo.logical_minimum finfo.logical_maximum) := by
  simp [writeUsage, h1, h2, h3]

/-- Witness for C1: the spec scenario, value 5 against range 0..1 on the
ring LED usage; only the two query ioctls are issued and the state is g0
unchanged. -/
theorem write_out_of_range_no_commit_witness :
    writeUsage g0 testDev 2 8 0x18 5 =
      (g0,
       [Ioctl.gusage 2 HID_REPORT_ID_UNKNOWN 0x80018, Ioctl.gfieldinfo 2 3 0],
       WriteResult.rangeError "LEDUsagePage" 5 0 1) := by
  have h := write_out_of_range_no_commit g0 testDev 2 8 0x18 5 ⟨3, 0, 0, 1⟩ ⟨0, 1⟩
    rfl rfl (by right; decide)
  rw [h]; decide

/-- C2: when resolution, field-info fetch and value staging are all accepted
and the value is inside the bounds, the ioctl trace of writeUsage is exactly
one HIDIOCGUSAGE resolution carrying the unknown-report-id wildcard, one
HIDIOCGFIELDINFO, one HIDIOCSUSAGE and one HIDIOCSREPORT, in that order; and
(no caching) every writeUsage call whatsoever begins with a fresh
HIDIOCGUSAGE resolution with report id unknown, so no resolution is reused
across calls. -/
theorem write_in_range_four_ioctls
    (g : Globals) (dev : Device) (rt page code : Nat) (value : Int)
    (uref : UsageRefInfo) (finfo : FieldInfo)
    (h1 : dev.gusage rt ((page <<< 16) ||| code) = some uref)
    (h2 : dev.gfieldinfo rt uref.report_id uref.field_index = some finfo)
    (hlo : finfo.logical_minimum ≤ value) (hhi : value ≤ finfo.logical_maximum)
    (hsu : dev.susageOk = true) :
    (writeUsage g dev rt page code value).2.1 =
      [Ioctl.gusage rt HID_REPORT_ID_UNKNOWN ((page <<< 16) ||| code),
       Ioctl.gfieldinfo rt uref.report_id uref.field_index,
       Ioctl.susage rt uref.report_id uref.field_index uref.usage_index value,
       Ioctl.sreport rt uref.report_id] ∧
    ∀ (g2 : Globals) (dev2 : Device) (rt2 page2 code2 : Nat) (v2 : Int),
      ((writeUsage g2 dev2 rt2 page2 code2 v2).2.1).head? =
        some (Ioctl.gusage rt2 HID_REPORT_ID_UNKNOWN ((page2 <<< 16) ||| code2)) := by
  constructor
  · have hrange : ¬ (value < finfo.logical_minimum ∨ value > finfo.logical_maximum) := by
      push_neg
      exact ⟨hlo, hhi⟩
    simp [writeUsage, h1, h2, hrange, hsu]
  · intro g2 dev2 rt2 page2 code2 v2
    unfold writeUsage
    rcases hg : dev2.gusage rt2 ((page2 <<< 16) ||| code2) with _ | uref2
    · simp [hg]
    · rcases hf : dev2.gfieldinfo rt2 uref2.report_id uref2.field_index with _ | finfo2
      · simp [hg, hf]
      · by_cases hr : v2 < finfo2.logical_minimum ∨ v2 > finfo2.logical_maximum
        · simp [hg, hf, hr]
        · by_cases hs : dev2.susageOk <;> simp [hg, hf, hr, hs]

/-- Witness for C2: an in-range write of value 1 to the mute LED on the test
device issues exactly the four ioctls in order. -/
theorem write_in_range_four_ioctls_witness :
    (writeUsage g0 testDev 2 8 9 1).2.1 =
      [Ioctl.gusage 2 HID_REPORT_ID_UNKNOWN 0x80009, Ioctl.gfieldinfo 2 3 0,
       Ioctl.susage 2 3 0 0 1, Ioctl.sreport 2 3] ∧
    (writeUsage g0 deadDev 2 8 9 1).2.1.head? =
      some (Ioctl.gusage 2 HID_REPORT_ID_UNKNOWN 0x80009) := by
  have h := write_in_range_four_ioctls g0 testDev 2 8 9 1 ⟨3, 0, 0, 1⟩ ⟨0, 1⟩
    rfl rfl (by decide) (by decide) rfl
  constructor
  · rw [h.1]; decide
  · have h2 := h.2 g0 deadDev 2 8 9 1
    rw [h2]; decide

/-- C10: writeUsage and readUsage leave the global state (mutestate,
hookstate, ringerstate and the run flag) unchanged on every path, whatever
the device answers; readUsage delivers a new out-parameter value exactly
when the resolve, the field-info fetch and the value read all succeed, and
on any earlier failure the out-parameter keeps its previous contents. -/
theorem transactor_frame :
    (∀ (g : Globals) (dev : Device) (rt page code : Nat) (value : Int),
       (writeUsage g dev rt page code value).1 = g) ∧
    (∀ (g : Globals) (dev : Device) (rt page code : Nat) (prev : Int),
       (readUsage g dev rt page code prev).1 = g) ∧
    (∀ (g : Globals) (dev : Device) (rt page code : Nat) (prev : Int)
       (uref : UsageRefInfo) (finfo : FieldInfo) (v : Int),
       dev.gusage rt ((page <<< 16) ||| code) = some uref →
       dev.gfieldinfo rt uref.report_id uref.field_index = some finfo →
       dev.gusageLoc rt uref.report_id uref.field_index uref.usage_index = some v →
       (readUsage g dev rt page code prev).2.2.2 = v) ∧
    (∀ (g : Globals) (dev : Device) (rt page code : Nat) (prev : Int),
       dev.gusage rt ((page <<< 16) ||| code) = none →
       (readUsage g dev rt page code prev).2.2.2 = prev) ∧
    (∀ (g : Globals) (dev : Device) (rt page code : Nat) (prev : Int)
       (uref : UsageRefInfo),
       dev.gusage rt ((page <<< 16) ||| code) = some uref →
       dev.gfieldinfo rt uref.report_id uref.field_index = none →
       (readUsage g dev rt page code prev).2.2.2 = prev) ∧
    (∀ (g : Globals) (dev : Device) (rt page code : Nat) (prev : Int)
       (uref : UsageRefInfo) (finfo : FieldInfo),
       dev.gusage rt ((page <<< 16) ||| code) = some uref →
       dev.gfieldinfo rt uref.report_id uref.field_index = some finfo →
       dev.gusageLoc rt uref.report_id uref.field_index uref.usage_index = none →
       (readUsage g dev rt page code prev).2.2.2 = prev) := by
  refine ⟨?_, ?_, ?_, ?_, ?_, ?_⟩
  · intro g dev rt page code value
    unfold writeUsage
    rcases hg : dev.gusage rt ((page <<< 16) ||| code) with _ | uref
    · simp [hg]
    · rcases hf : dev.gfieldinfo rt uref.report_id uref.field_index with _ | finfo
      · simp [hg, hf]
      · by_cases hr : value < finfo.logical_minimum ∨ value > finfo.logical_maximum
        · simp [hg, hf, hr]
        · by_cases hs : dev.susageOk <;> simp [hg, hf, hr, hs]
  · intro g dev rt page code prev
    unfold readUsage
    rcases hg : dev.gusage rt ((page <<< 16) ||| code) with _ | uref
    · simp [hg]
    · rcases hf : dev.gfieldinfo rt uref.report_id uref.field_index with _ | finfo
      · simp [hg, hf]
      · rcases hv : dev.gusageLoc rt uref.report_id uref.field_index uref.usage_index
          with _ | v <;> simp [hg, hf, hv]
  · intro g dev rt page code prev uref finfo v h1 h2 h3
    simp [readUsage, h1, h2, h3]
  · intro g dev rt page code prev h1
    simp [readUsage, h1]
  · intro g dev rt page code prev uref h1 h2
    simp [readUsage, h1, h2]
  · intro g dev rt page code prev uref finfo h1 h2 h3
    simp [readUsage, h1, h2, h3]

/-- Witness for C10: on the test device a read delivers the device value 1
without touching the state g0; on the dead device the out-parameter keeps
its previous contents 7; a write on the dead device also leaves g0 intact. -/
theorem transactor_frame_witness :
    (writeUsage g0 deadDev 2 8 9 1).1 = g0 ∧
    (readUsage g0 testDev 2 8 9 7).1 = g0 ∧
    (readUsage g0 testDev 2 8 9 7).2.2.2 = 1 ∧
    (readUsage g0 deadDev 2 8 9 7).2.2.2 = 7 :=
  ⟨transactor_frame.1 g0 deadDev 2 8 9 1,
   transactor_frame.2.1 g0 testDev 2 8 9 7,
   transactor_frame.2.2.1 g0 testDev 2 8 9 7 ⟨3, 0, 0, 1⟩ ⟨0, 1⟩ 1 rfl rfl rfl,
   transactor_frame.2.2.2.1 g0 deadDev 2 8 9 7 rfl⟩

/-- C6: a read of fewer bytes than one event record (a failed read returns
-1 and is included) makes the iteration set the run flag to 0, issue no
writes, and return -1 from the background task; the foreground guard then
fails, so the polling loop exits on its next tick, as does the background
while guard itself. -/
theorem short_read_shutdown (selectRd readRd : Int) (evs : List (Nat × Int))
    (g : Globals) (hsel : selectRd > 0) (hshort : readRd < sizeofHiddevEvent) :
    eventLoopIter selectRd readRd evs g = ({ g with run := 0 }, [], some (-1)) ∧
    mainLoopContinues { g with run := 0 } = false ∧
    threadLoopContinues { g with run := 0 } = false := by
  refine ⟨?_, rfl, rfl⟩
  simp [eventLoopIter, hsel, hshort]

/-- Witness for C6: select reports readiness, read returns 4 bytes, one
event record being 8. -/
theorem short_read_shutdown_witness :
    eventLoopIter 1 4 [] g0 = ({ g0 with run := 0 }, [], some (-1)) ∧
    mainLoopContinues { g0 with run := 0 } = false ∧
    threadLoopContinues { g0 with run := 0 } = false :=
  short_read_shutdown 1 4 [] g0 (by decide) (by decide)

/-- C5 evidence (code bug): in the malformed-read scenario the background
task does return -1 out of eventLoopIter, but main calls pthread_join with a
NULL value pointer and retval is only ever set on a join failure, so the
process exit status is 0, not non-zero as specified; mainExit is constant in
the background task's return value. The remaining cases of the claim do
hold: exit 0 on quit with successful join, and -1 on device-not-found,
EACCES, create failure and join failure. -/
theorem short_read_exit_status_zero :
    (eventLoopIter 1 4 [] g0).2.2 = some (-1) ∧
    mainExit shortReadEnv = 0 ∧
    (∀ (env : MainEnv) (r : Int), mainExit { env with threadRetval := r } = mainExit env) ∧
    mainExit { shortReadEnv with listDev := fun _ => 0 } = -1 ∧
    mainExit { shortReadEnv with openFails := true, openErrnoEACCES := true } = -1 ∧
    mainExit { shortReadEnv with createFails := true } = -1 ∧
    mainExit { shortReadEnv with joinFails := true } = -1 := by
  refine ⟨by decide, by decide, ?_, by decide, by decide, by decide, by decide⟩
  intro env r
  simp [mainExit]

theorem applyHookOp_hookstate (g : Globals) (op : HookOp) :
    (applyHookOp g op).hookstate = hstep g.hookstate op := by
  cases op with
  | hw v =>
      have h1 : hookHid >>> 16 = TelephonyUsagePage := by decide
      have h2 : hookHid &&& 0xFFFF = Tel_Hook_Switch := by decide
      by_cases hdiff : g.hookstate = v
      · simp [applyHookOp, processEvent, h1, h2, hdiff, hstep]
      · simp [applyHookOp, processEvent, h1, h2, hdiff, hstep]
  | toggle => simp [applyHookOp, hitKey, hstep]

theorem hstep_bool (h : Int) (op : HookOp) (hh : h = 0 ∨ h = 1)
    (hop : hookOpBool op = true) : hstep h op = 0 ∨ hstep h op = 1 := by
  cases op with
  | hw v =>
      have hv : v = 0 ∨ v = 1 := by
        rcases Bool.or_eq_true_iff.mp hop with h' | h'
        · exact Or.inl (by exact_mod_cast beq_iff_eq.mp h')
        · exact Or.inr (by exact_mod_cast beq_iff_eq.mp h')
      rcases hh with rfl | rfl <;> rcases hv with rfl | rfl <;> simp [hstep]
  | toggle => rcases hh with rfl | rfl <;> simp [hstep, cNot]

theorem hstep_xor (h : Int) (op : HookOp) (hh : h = 0 ∨ h = 1)
    (hop : hookOpBool op = true) : hstep h op = xorI h (hookEffect h op) := by
  cases op with
  | hw v =>
      have hv : v = 0 ∨ v = 1 := by
        rcases Bool.or_eq_true_iff.mp hop with h' | h'
        · exact Or.inl (by exact_mod_cast beq_iff_eq.mp h')
        · exact Or.inr (by exact_mod_cast beq_iff_eq.mp h')
      rcases hh with rfl | rfl <;> rcases hv with rfl | rfl <;> decide
  | toggle => rcases hh with rfl | rfl <;> decide

theorem xorI_bool (a b : Int) : xorI a b = 0 ∨ xorI a b = 1 := by
  by_cases h : a = b
  · exact Or.inl (by simp [xorI, h])
  · exact Or.inr (by simp [xorI, h])

theorem hookEffectsXor_bool (ops : List HookOp) (h : Int) :
    hookEffectsXor h ops = 0 ∨ hookEffectsXor h ops = 1 := by
  cases ops with
  | nil => exact Or.inl rfl
  | cons op ops => exact xorI_bool _ _

theorem xorI_assoc_bool (a b c : Int) (ha : a = 0 ∨ a = 1) (hb : b = 0 ∨ b = 1)
    (hc : c = 0 ∨ c = 1) : xorI (xorI a b) c = xorI a (xorI b c) := by
  rcases ha with rfl | rfl <;> rcases hb with rfl | rfl <;>
    rcases hc with rfl | rfl <;> decide

theorem foldl_hstep_xor (ops : List HookOp) (h : Int) (hh : h = 0 ∨ h = 1)
    (hops : ∀ op ∈ ops, hookOpBool op = true) :
    ops.foldl hstep h = xorI h (hookEffectsXor h ops) := by
  induction ops generalizing h with
  | nil =>
      rcases hh with rfl | rfl <;> simp [hookEffectsXor, xorI]
  | cons op ops ih =>
      have hop : hookOpBool op = true := hops op (List.mem_cons_self op ops)
      have hops' : ∀ o ∈ ops, hookOpBool o = true :=
        fun o ho => hops o (List.mem_cons_of_mem op ho)
      have hmid : hstep h op = 0 ∨ hstep h op = 1 := hstep_bool h op hh hop
      have heff : hookEffect h op = 0 ∨ hookEffect h op = 1 := by
        cases op with
        | hw v => exact xorI_bool _ _
        | toggle => exact Or.inr rfl
      calc (op :: ops).foldl hstep h = ops.foldl hstep (hstep h op) := rfl
        _ = xorI (hstep h op) (hookEffectsXor (hstep h op) ops) := ih (hstep h op) hmid hops'
        _ = xorI (xorI h (hookEffect h op)) (hookEffectsXor (hstep h op) ops) := by
              rw [hstep_xor h op hh hop]
        _ = xorI h (xorI (hookEffect h op) (hookEffectsXor (hstep h op) ops)) :=
              xorI_assoc_bool h (hookEffect h op) (hookEffectsXor (hstep h op) ops)
                hh heff (hookEffectsXor_bool ops (hstep h op))
        _ = xorI h (hookEffectsXor h (op :: ops)) := rfl

theorem runHookOps_hookstate (ops : List HookOp) (g : Globals) :
    (runHookOps g ops).hookstate = ops.foldl hstep g.hookstate := by
  induction ops generalizing g with
  | nil => rfl
  | cons op ops ih =>
      calc (runHookOps g (op :: ops)).hookstate
          = (runHookOps (applyHookOp g op) ops).hookstate := rfl
        _ = ops.foldl hstep (applyHookOp g op).hookstate := ih (applyHookOp g op)
        _ = ops.foldl hstep (hstep g.hookstate op) := by rw [applyHookOp_hookstate]
        _ = (op :: ops).foldl hstep g.hookstate := rfl

/-- C9: for any interleaving of hardware hook events and user hook toggles,
each applied atomically in arrival order through the program's own
reconciliation and dispatch code, the final stored hook state is the initial
hook state XORed with the XOR of the effects of all the operations, taken in
arrival order (a toggle contributes 1, an event carrying v contributes
state-before XOR v) — no update is lost. Stated for boolean-valued states
and events, the values the hook protocol uses. -/
theorem hook_interleaving_xor (g : Globals) (ops : List HookOp)
    (hh : g.hookstate = 0 ∨ g.hookstate = 1)
    (hops : ∀ op ∈ ops, hookOpBool op = true) :
    (runHookOps g ops).hookstate = xorI g.hookstate (hookEffectsXor g.hookstate ops) := by
  rw [runHookOps_hookstate]
  exact foldl_hstep_xor ops g.hookstate hh hops

/-- Witness for C9: from hook 0, the sequence hardware-event 1, user toggle,
hardware-event 1, user toggle ends at hook 0, the XOR of its effects. -/
theorem hook_interleaving_xor_witness :
    (runHookOps g0 [HookOp.hw 1, HookOp.toggle, HookOp.hw 1, HookOp.toggle]).hookstate =
      xorI g0.hookstate
        (hookEffectsXor g0.hookstate [HookOp.hw 1, HookOp.toggle, HookOp.hw 1, HookOp.toggle]) :=
  hook_interleaving_xor g0 [HookOp.hw 1, HookOp.toggle, HookOp.hw 1, HookOp.toggle]
    (Or.inl rfl) (by decide)

end JabraHiddev
